import Mathlib

/-!
Verification of the model-parallelization core of the repository.

This file gives a shallow embedding of the control flow of
`optimum/neuron/distributed/parallel_layers.py` and
`optimum/neuron/accelerate/accelerator.py`, and proves properties of the
embedded definitions.

Conventions used by the embedding:
* Python modules (`torch.nn.Module` sublayers) are modelled by the inductive
  type `Proj`, carrying the constructor arguments that the source passes to
  the corresponding layer classes.
* In-place mutation of a layer is modelled by explicit state passing: a
  transform takes the layer state and returns the (possibly partially)
  mutated layer state together with an optional error message.  An exception
  in the Python code corresponds to returning `some msg`; mutations performed
  before the raise are visible in the returned state.
* External collective operations (from `neuronx_distributed`) are taken as
  function parameters, since only their call structure is visible in the
  source.
-/

set_option autoImplicit false

namespace OptimumNeuron

/-- Name of the attribute under which the fused GQA QKV projection is
installed, `ParallelSelfAttention.GQA_QKV_PROJ_NAME` in the source. -/
def GQA_QKV_PROJ_NAME : String := "qkv_proj"

/-- State of a linear-projection attribute of a layer.  Each constructor
records the arguments the source passes when building the corresponding
object:
* `dense` is an ordinary `torch.nn.Linear`;
* `columnParallel` is a `ColumnParallelLinear` built by
  `linear_to_parallel_linear(..., "column", gather_output=..., stride=...,
  sequence_parallel_enabled=...)`;
* `rowParallel` is a `RowParallelLinear` built by
  `linear_to_parallel_linear(..., "row", input_is_parallel=...,
  sequence_parallel_enabled=...)`;
* `fakeProj` is a `FakeProj` proxy with the constructor arguments from
  `replace_qkv_by_gqa_qkv_column_parallel_linear` (the `get_parent` lambda,
  which returns the attention layer itself, is represented by the qualified
  name of that attention layer). -/
inductive Proj where
  | dense (inFeatures : Nat) (outFeatures : Nat) (hasBias : Bool)
  | columnParallel (gatherOutput : Bool) (stride : Nat) (sequenceParallelEnabled : Bool)
  | rowParallel (inputIsParallel : Bool) (sequenceParallelEnabled : Bool)
  | fakeProj (projQualifiedName : String) (projName : String) (outputIndex : Nat)
      (attentionLayerQualifiedName : String) (gqaQkvProjName : String)
  deriving DecidableEq, Repr

/-- Accessor for `linear.out_features` (meaningful on `dense` layers, which is
the only case in which the source reads it). -/
def Proj.outFeaturesOf : Proj → Nat
  | .dense _ o _ => o
  | _ => 0

/-- Accessor for `linear.weight.size(1)`, the input dimension. -/
def Proj.inFeaturesOf : Proj → Nat
  | .dense i _ _ => i
  | _ => 0

/-- Accessor for `linear.bias is not None`. -/
def Proj.hasBiasOf : Proj → Bool
  | .dense _ _ b => b
  | _ => false

/-- Modelled from the spec: `OptimumGQAQKVColumnParallelLinear` (defined in
`optimum/neuron/distributed/utils.py`, which is not part of the sources).
Per section 4.3 of the spec it is a single fused column-sharded projection
holding replicated and interleaved Q, K, V weights; the fields are exactly
the constructor arguments visible at the call site in
`ParallelSelfAttention.replace_qkv_by_gqa_qkv_column_parallel_linear`. -/
structure OptimumGQAQKVColumnParallelLinear where
  queryProjName : String
  keyProjName : String
  valueProjName : String
  outputProjName : Option String
  numAttentionHeads : Nat
  numKeyValueHeads : Nat
  hiddenSize : Nat
  queryOutFeatures : Nat
  keyValueOutFeatures : Nat
  gatherOutput : Bool
  bias : Bool
  sequenceParallelEnabled : Bool
  kvSizeMultiplier : Nat
  deriving DecidableEq, Repr

/-- Class-level naming metadata of a `ParallelSelfAttention` transform rule:
the declared attribute names (`QUERIES_NAME`, `KEYS_NAME`, `VALUES_NAME`,
`OUTPUT_PROJECTION_NAME`, `NUM_KEY_VALUE_HEADS_NAME`,
`NUM_KEY_VALUE_GROUPS_NAME`).  The head-count and head-size attribute names
always resolve (either declared or through the normalized config), so they
are not tracked. -/
structure SAConfig where
  queriesName : String
  keysName : String
  valuesName : String
  outputProjectionName : Option String
  numKeyValueHeadsName : Option String
  numKeyValueGroupsName : Option String
  deriving DecidableEq, Repr

/-- State of a self-attention layer: the attribute values that
`ParallelSelfAttention._transform` reads and writes. -/
structure SALayer where
  numAttentionHeads : Nat
  numKeyValueHeads : Nat
  numKeyValueGroups : Nat
  allHeadSize : Nat
  query : Proj
  key : Proj
  value : Proj
  outputProjection : Proj
  qkvProj : Option OptimumGQAQKVColumnParallelLinear
  deriving DecidableEq, Repr

/-- Embedding of `ParallelSelfAttention.replace_qkv_by_gqa_qkv_column_parallel_linear`.
It raises when the rule declares no key/value-heads attribute name or when the
tensor-parallel size is strictly smaller than the number of key/value heads;
otherwise it installs the fused projection under `GQA_QKV_PROJ_NAME` and
replaces the query/key/value attributes by `FakeProj` proxies with output
indices 0, 1 and 2. -/
def replace_qkv_by_gqa_qkv_column_parallel_linear (cfg : SAConfig) (tpSize : Nat)
    (attentionLayerQualifiedName : String) (sequenceParallelEnabled : Bool)
    (kvSizeMultiplier : Option Nat) (layer : SALayer) : SALayer × Option String :=
  if cfg.numKeyValueHeadsName.isNone then
    (layer, some "does not defined the name of the number of key value heads")
  else
    let numKeyValueHeads := layer.numKeyValueHeads
    if tpSize < numKeyValueHeads then
      (layer, some "The TP size is lower than the number of key value heads, using GQAQKVColumnParallelLinear is not needed.")
    else
      let numAttentionHeads := layer.numAttentionHeads
      let queryLinear := layer.query
      let keyLinear := layer.key
      let hiddenSize := queryLinear.inFeaturesOf
      let queryOutFeatures := queryLinear.outFeaturesOf
      let keyValueOutFeatures := keyLinear.outFeaturesOf
      let mult := match kvSizeMultiplier with
        | some m => m
        | none => tpSize / numKeyValueHeads
      let gqa : OptimumGQAQKVColumnParallelLinear :=
        { queryProjName := cfg.queriesName
          keyProjName := cfg.keysName
          valueProjName := cfg.valuesName
          outputProjName := cfg.outputProjectionName
          numAttentionHeads := numAttentionHeads
          numKeyValueHeads := numKeyValueHeads
          hiddenSize := hiddenSize
          queryOutFeatures := queryOutFeatures
          keyValueOutFeatures := keyValueOutFeatures
          gatherOutput := false
          bias := queryLinear.hasBiasOf
          sequenceParallelEnabled := sequenceParallelEnabled
          kvSizeMultiplier := mult }
      let layer := { layer with qkvProj := some gqa }
      let layer := { layer with
        query := Proj.fakeProj (attentionLayerQualifiedName ++ "." ++ cfg.queriesName) "q" 0
          attentionLayerQualifiedName GQA_QKV_PROJ_NAME }
      let layer := { layer with
        key := Proj.fakeProj (attentionLayerQualifiedName ++ "." ++ cfg.keysName) "k" 1
          attentionLayerQualifiedName GQA_QKV_PROJ_NAME }
      let layer := { layer with
        value := Proj.fakeProj (attentionLayerQualifiedName ++ "." ++ cfg.valuesName) "v" 2
          attentionLayerQualifiedName GQA_QKV_PROJ_NAME }
      (layer, none)

/-- Common tail of `ParallelSelfAttention._transform`, starting right after the
head-count compatibility check: query/key/value handling (fused GQA path or
separate column sharding), output-projection row sharding, and the head-count
attribute updates. -/
def transformSelfAttentionCore (cfg : SAConfig) (tpSize : Nat)
    (layerQualifiedName : String) (sequenceParallelEnabled : Bool)
    (kvSizeMultiplier : Option Nat) (needsGqaQkvColumnParallelLinear : Bool)
    (layer : SALayer) : SALayer × Option String :=
  let step :=
    if needsGqaQkvColumnParallelLinear then
      replace_qkv_by_gqa_qkv_column_parallel_linear cfg tpSize layerQualifiedName
        sequenceParallelEnabled kvSizeMultiplier layer
    else
      ({ layer with
          query := Proj.columnParallel false 1 sequenceParallelEnabled
          key := Proj.columnParallel false 1 sequenceParallelEnabled
          value := Proj.columnParallel false 1 sequenceParallelEnabled }, none)
  match step with
  | (l, some e) => (l, some e)
  | (l, none) =>
    let l := match cfg.outputProjectionName with
      | some _ =>
        { l with outputProjection := Proj.rowParallel true sequenceParallelEnabled }
      | none => l
    let l := { l with numAttentionHeads := layer.numAttentionHeads / tpSize }
    let l := match cfg.numKeyValueHeadsName with
      | some _ =>
        if !needsGqaQkvColumnParallelLinear then
          { l with numKeyValueHeads := layer.numKeyValueHeads / tpSize }
        else
          let mult := match l.qkvProj with
            | some gqa => gqa.kvSizeMultiplier
            | none => 0
          let newNumKeyValueHeads := (layer.numKeyValueHeads * mult) / tpSize
          let l := { l with numKeyValueHeads := newNumKeyValueHeads }
          { l with numKeyValueGroups := l.numAttentionHeads / newNumKeyValueHeads }
      | none => l
    ({ l with allHeadSize := layer.allHeadSize / tpSize }, none)

/-- Embedding of `ParallelSelfAttention._transform`.  It first checks that the
key/value-heads and key/value-groups attribute names are declared together,
then checks head-count compatibility when they are declared, computes whether
the GQA fused path is needed (`num_key_value_heads < tp_size`) and delegates to
`transformSelfAttentionCore`. -/
def ParallelSelfAttention.transform (cfg : SAConfig) (tpSize : Nat)
    (layerQualifiedName : String) (sequenceParallelEnabled : Bool)
    (kvSizeMultiplier : Option Nat) (layer : SALayer) : SALayer × Option String :=
  if (cfg.numKeyValueHeadsName.isSome && cfg.numKeyValueGroupsName.isNone)
      || (cfg.numKeyValueHeadsName.isNone && cfg.numKeyValueGroupsName.isSome) then
    (layer, some "Both NUM_KEY_VALUE_HEADS_NAME and NUM_KEY_VALUE_GROUPS_NAME must be specified.")
  else
    match cfg.numKeyValueHeadsName with
    | some _ =>
      let numKeyValueHeads := layer.numKeyValueHeads
      if numKeyValueHeads % tpSize ≠ 0 ∧ tpSize % numKeyValueHeads ≠ 0 then
        (layer, some "Only the cases where the number of key value heads is divisible by the TP size, or the other way around are supported.")
      else
        transformSelfAttentionCore cfg tpSize layerQualifiedName sequenceParallelEnabled
          kvSizeMultiplier (numKeyValueHeads < tpSize) layer
    | none =>
      transformSelfAttentionCore cfg tpSize layerQualifiedName sequenceParallelEnabled
        kvSizeMultiplier false layer

/-- State of the embedding sublayer of a model: either a dense
`torch.nn.Embedding` or the `ParallelEmbedding` it is replaced with. -/
inductive EmbeddingModule where
  | dense (numEmbeddings : Nat)
  | parallel (numEmbeddings : Nat)
  deriving DecidableEq, Repr

/-- Reads `embedding_layer.num_embeddings`. -/
def EmbeddingModule.numEmbeddingsOf : EmbeddingModule → Nat
  | .dense n => n
  | .parallel n => n

/-- Class-level naming metadata of a `ParallelEmbedding` transform rule.
`embeddingName` is the result of resolving `EMBEDDING_NAME` for the model
class (`none` when the per-class dictionary has no entry for the model and no
default, in which case the source raises); `lmHeadName` is the resolved
`LM_HEAD_NAME` (`none` when not declared or not resolved). -/
structure EmbCfg where
  embeddingName : Option String
  lmHeadName : Option String
  deriving DecidableEq, Repr

/-- State of the layer handed to `ParallelEmbedding._transform`: its embedding
sublayer and the (optional) tied LM head sublayer.  `lmHead = none` models the
`hasattr` check failing. -/
structure EmbLayer where
  embedding : EmbeddingModule
  lmHead : Option Proj
  deriving DecidableEq, Repr

/-- Modelled from the spec: `embedding_to_parallel_embedding` (defined in
`optimum/neuron/distributed/utils.py`, not part of the sources).  Per
sections 4.1 and 4.2 of the spec it converts the dense embedding into a
row-sharded `ParallelEmbedding` and, when a tied LM head is given, converts it
into a column-parallel linear sharing the sharded embedding weight. -/
def embedding_to_parallel_embedding (emb : EmbeddingModule) (lmHeadLayer : Option Proj) :
    EmbeddingModule × Option Proj :=
  (EmbeddingModule.parallel emb.numEmbeddingsOf,
    lmHeadLayer.map fun _ => Proj.columnParallel true 1 false)

/-- Embedding of `ParallelEmbedding._transform`.  When the embedding name
cannot be resolved it raises; when the number of embeddings is not divisible
by the tensor-parallel size it returns the layer unchanged (a warning is
logged, nothing raised); otherwise it replaces the embedding sublayer (and the
tied LM head when present) with the parallel counterparts. -/
def ParallelEmbedding.transform (cfg : EmbCfg) (tpSize : Nat) (layer : EmbLayer) :
    EmbLayer × Option String :=
  let modelHasLmHead := cfg.lmHeadName.isSome && layer.lmHead.isSome
  match cfg.embeddingName with
  | none => (layer, some "Could not infer the embedding name.")
  | some _ =>
    let numEmbeddings := layer.embedding.numEmbeddingsOf
    if numEmbeddings % tpSize ≠ 0 then
      (layer, none)
    else
      let parallelLayers :=
        embedding_to_parallel_embedding layer.embedding
          (if modelHasLmHead then layer.lmHead else none)
      if modelHasLmHead then
        ({ layer with embedding := parallelLayers.1, lmHead := parallelLayers.2 }, none)
      else
        ({ layer with embedding := parallelLayers.1 }, none)

/-- State read and written by `ParallelCrossEntropy._transform`: the model
configuration field `problem_type` (absent attribute modelled as `none`, the
source uses `getattr(model.config, "problem_type", "")`), the last linear
projection sublayer, and whether the cross-entropy computation of the model
has been patched by `patch_cross_entropy`. -/
structure CEModelState where
  problemType : Option String
  linearProjection : Proj
  crossEntropyPatched : Bool
  deriving DecidableEq, Repr

/-- Resolved `LAST_LINEAR_PROJECTION_NAME` for the model class (`none` when
the per-class dictionary has no entry). -/
structure CEConfig where
  lastLinearProjectionName : Option String
  deriving DecidableEq, Repr

/-- Embedding of `ParallelCrossEntropy.is_eligible_for_cross_entropy_parallelization`. -/
def is_eligible_for_cross_entropy_parallelization (st : CEModelState) : Bool :=
  let problemType := st.problemType.getD ""
  !(problemType = "regression" || problemType = "multi_label_classification")

/-- Embedding of `ParallelCrossEntropy._transform`.  Returns the state
unchanged when no projection name is resolved or when the model is not
eligible; only patches the cross entropy when the projection is already a
`ColumnParallelLinear`; raises when it is a `RowParallelLinear`; otherwise
replaces the projection with a column-parallel linear (gather_output false,
sequence_parallel_enabled false) and patches the cross entropy. -/
def ParallelCrossEntropy.transform (cfg : CEConfig) (st : CEModelState) :
    CEModelState × Option String :=
  match cfg.lastLinearProjectionName with
  | none => (st, none)
  | some _ =>
    if !is_eligible_for_cross_entropy_parallelization st then
      (st, none)
    else
      match st.linearProjection with
      | Proj.columnParallel _ _ _ => ({ st with crossEntropyPatched := true }, none)
      | Proj.rowParallel _ _ =>
        (st, some "Cannot parallelize the cross entropy loss if the last linear projection is a RowParallelLinear instance.")
      | _ =>
        ({ st with
            linearProjection := Proj.columnParallel false 1 false
            crossEntropyPatched := true }, none)

/-- Embedding of the `SequenceCollectiveOpInfo` dataclass.  The `layer` field
(a module type or qualified-name pattern) is modelled as a string pattern. -/
structure SequenceCollectiveOpInfo where
  collectiveOp : String
  layerPattern : String
  io : String
  firstOrLast : String
  deriving DecidableEq, Repr

/-- Embedding of constructing a `SequenceCollectiveOpInfo`, whose
`__post_init__` validates `collective_op` and then `io`. -/
def mkSequenceCollectiveOpInfo (collectiveOp layerPattern io firstOrLast : String) :
    Except String SequenceCollectiveOpInfo :=
  if collectiveOp ≠ "scatter" ∧ collectiveOp ≠ "gather" then
    Except.error "Authorized values are scatter and gather"
  else if io ≠ "input" ∧ io ≠ "output" then
    Except.error "Authorized values are input and output"
  else
    Except.ok ⟨collectiveOp, layerPattern, io, firstOrLast⟩

/-- Activation tensors, concretely modelled as integer matrices so that
`transpose(0, 1)` is list transposition; `contiguous()` is the identity. -/
def Tens : Type := List (List Int)

instance : DecidableEq Tens := inferInstanceAs (DecidableEq (List (List Int)))

instance : Repr Tens := inferInstanceAs (Repr (List (List Int)))

/-- Return value of a wrapped module forward: either a bare tensor or a tuple
whose first element is a tensor. -/
inductive TensorOrTuple where
  | tensor (t : Tens)
  | tuple (head : Tens) (rest : List Tens)
  deriving DecidableEq, Repr

/-- Embedding of the `sequence_parallel_forward` closure built by
`IOSequenceParallelizer._sequence_parallelize` for `collective_op = "scatter"`
and `io = "output"`: run the original forward, transpose the (first) output
tensor, scatter it to the sequence-parallel region, and rebuild the original
return shape.  The collective `scatter_to_sequence_parallel_region` is an
external operation and is taken as a parameter. -/
def sequenceParallelForwardScatterOutput (scatterToSequenceParallelRegion : Tens → Tens)
    (origForward : Tens → TensorOrTuple) (x : Tens) : TensorOrTuple :=
  let output := origForward x
  let toScatter := match output with
    | TensorOrTuple.tensor t => t
    | TensorOrTuple.tuple h _ => h
  let toScatter := List.transpose toScatter
  let scattered := scatterToSequenceParallelRegion toScatter
  match output with
  | TensorOrTuple.tensor _ => TensorOrTuple.tensor scattered
  | TensorOrTuple.tuple _ rest => TensorOrTuple.tuple scattered rest

/-- Embedding of the `sequence_parallel_forward` closure built by
`IOSequenceParallelizer._sequence_parallelize` for `collective_op = "gather"`
and `io = "output"`: run the original forward, gather the (first) output
tensor from the sequence-parallel region, transpose it back, and rebuild the
original return shape. -/
def sequenceParallelForwardGatherOutput (gatherFromSequenceParallelRegion : Tens → Tens)
    (origForward : Tens → TensorOrTuple) (x : Tens) : TensorOrTuple :=
  let output := origForward x
  let toGather := match output with
    | TensorOrTuple.tensor t => t
    | TensorOrTuple.tuple h _ => h
  let gathered := gatherFromSequenceParallelRegion toGather
  let gathered := List.transpose gathered
  match output with
  | TensorOrTuple.tensor _ => TensorOrTuple.tensor gathered
  | TensorOrTuple.tuple _ rest => TensorOrTuple.tuple gathered rest

/-- Embedding of `set(xs).symmetric_difference(set(ys))`, as a list of the
names occurring in exactly one of the two name lists. -/
def symmetricDifference (xs ys : List String) : List String :=
  xs.filter (fun x => ¬ x ∈ ys) ++ ys.filter (fun y => ¬ y ∈ xs)

/-- Embedding of the key-set effect of the CPU-id re-keying loop in
`NeuronAccelerator._prepare_model_for_mp`:

    for key in list(cpu_ids.keys()):
        cpu_ids[mapping.get(key, key)] = cpu_ids.pop(key)

The fold runs over the snapshot of the original keys; at each key the key is
popped from the dictionary and the renamed key is inserted (appended when not
already present, overwritten in place otherwise). -/
def gqaRemapKeys (gqaMap : List (String × String)) (keys : List String) : List String :=
  keys.foldl
    (fun acc k =>
      let renamed := ((gqaMap.lookup k).getD k)
      let acc := acc.erase k
      if renamed ∈ acc then acc else acc ++ [renamed])
    keys

/-- State of a model as observed by `NeuronAccelerator.prepare_model`. The
boolean fields record the mutations the accelerator performs; `paramNames`
is the list of `named_parameters()` names. -/
structure NeuronModel where
  modelId : Nat
  isCustomModeling : Bool
  wasParallelized : Bool
  patchedForNeuron : Bool
  castedToBf16 : Bool
  useCache : Bool
  outputAttentions : Bool
  outputHiddenStates : Bool
  movedToDevice : Bool
  paramNames : List String
  deriving DecidableEq, Repr

/-- Observable effect of `self.state.trn_config.parallelize_model` (an
external collaborator): the GQA renaming metadata
`model._gqa_qkv_metadata["original_names_to_gqa_qkv_names"]` it attaches, the
parameter names of the parallelized model after device placement and
re-tying, and whether the result is a pipeline-parallel `NxDPPModel`. -/
structure ParallelizeEffect where
  gqaMap : List (String × String)
  xlaParamNames : List String
  isNxDPP : Bool
  deriving DecidableEq, Repr

/-- State of the `NeuronAccelerator` relevant to model preparation:
`self._models` (by model id), `self.state.mixed_precision` and whether
`self.distributed_type is NeuronDistributedType.MODEL_PARALLELISM`. -/
structure AcceleratorState where
  models : List Nat
  mixedPrecision : String
  isModelParallelism : Bool
  deriving DecidableEq, Repr

/-- Embedding of `NeuronAccelerator._prepare_model_for_mp`.  Already-prepared
or already-parallelized models are returned unchanged.  Otherwise the model is
parallelized and the CPU parameter-name snapshot is re-keyed through the GQA
renaming.  In the pipeline (`NxDPPModel`) branch no symmetric-difference check
is performed, but building the CPU-to-device parameter mapping indexes the
re-keyed snapshot at every local parameter name
(`cpu_ids[name] for name, _ in model.local_named_parameters()`), raising
`KeyError` when one is absent; this lookup is modelled by the `all` guard.  In
the non-pipeline branch a `ValueError` is raised when the re-keyed CPU name
set and the XLA name set have a non-empty symmetric difference, and the same
mapping comprehension runs afterwards over `model.named_parameters()` (it can
no longer fail once the symmetric-difference check has passed). -/
def prepareModelForMp (st : AcceleratorState) (eff : ParallelizeEffect)
    (m : NeuronModel) : Except String NeuronModel :=
  if st.models.contains m.modelId || m.wasParallelized then
    Except.ok m
  else
    let cpuIds := m.paramNames
    let remapped := gqaRemapKeys eff.gqaMap cpuIds
    if eff.isNxDPP then
      if eff.xlaParamNames.all (fun n => n ∈ remapped) then
        Except.ok { m with
          wasParallelized := true
          movedToDevice := true
          paramNames := eff.xlaParamNames }
      else
        Except.error "KeyError: a local parameter name is missing from the CPU parameter ids"
    else if symmetricDifference remapped eff.xlaParamNames ≠ [] then
      Except.error "The parameters on CPU do not match the parameters on the XLA device"
    else
      if eff.xlaParamNames.all (fun n => n ∈ remapped) then
        Except.ok { m with
          wasParallelized := true
          movedToDevice := true
          paramNames := eff.xlaParamNames }
      else
        Except.error "KeyError: a parameter name is missing from the CPU parameter ids"

/-- Embedding of `NeuronAccelerator.prepare_model`.  A model already in
`self._models` is returned immediately; custom-modeling models only get their
config flags flipped and are moved to the device; other models are patched for
Neuron, optionally cast to bfloat16, have their config flags flipped, and are
either prepared for model parallelism or moved to the device; every successful
non-early-return path records the model in `self._models` (through
`super().prepare_model`). -/
def prepareModel (st : AcceleratorState) (eff : ParallelizeEffect) (m : NeuronModel) :
    Except String (AcceleratorState × NeuronModel) :=
  if st.models.contains m.modelId then
    Except.ok (st, m)
  else if m.isCustomModeling then
    let m := { m with
      useCache := false
      outputAttentions := false
      outputHiddenStates := false
      movedToDevice := true }
    Except.ok ({ st with models := m.modelId :: st.models }, m)
  else
    let m := { m with patchedForNeuron := true }
    let m := if st.mixedPrecision = "bf16" then { m with castedToBf16 := true } else m
    let m := { m with
      useCache := false
      outputAttentions := false
      outputHiddenStates := false }
    if st.isModelParallelism then
      match prepareModelForMp st eff m with
      | Except.error e => Except.error e
      | Except.ok m2 => Except.ok ({ st with models := m2.modelId :: st.models }, m2)
    else
      let m := { m with movedToDevice := true }
      Except.ok ({ st with models := m.modelId :: st.models }, m)

/-- The torch dtypes appearing in `_prepare_optimizer_for_zero_1`. -/
inductive TorchDtype where
  | float32
  | bfloat16
  deriving DecidableEq, Repr

/-- Embedding of the dictionary lookup
`{"no": torch.float32, "bf16": torch.bfloat16}.get(mixed_precision)`. -/
def mixedPrecisionToDtype (mixedPrecision : String) : Option TorchDtype :=
  if mixedPrecision = "no" then some TorchDtype.float32
  else if mixedPrecision = "bf16" then some TorchDtype.bfloat16
  else none

/-- Modelled from the spec: the `NeuronZero1Optimizer` built by
`_prepare_optimizer_for_zero_1` (the class lives in `neuronx_distributed`, an
external collaborator; the fields are the constructor arguments visible at
the two call sites). -/
structure NeuronZero1Optimizer where
  optimizerDtype : TorchDtype
  pinLayout : Bool
  builtFromArgsToRecreate : Bool
  deriving DecidableEq, Repr

/-- Embedding of `NeuronAccelerator._prepare_optimizer_for_zero_1`: raises a
`ValueError` when the mixed-precision mode maps to no supported dtype, and
otherwise builds the ZeRO-1 optimizer with that dtype (from the stored
constructor arguments when the optimizer was created lazily, from its
parameter groups otherwise). -/
def prepareOptimizerForZero1 (mixedPrecision : String) (hasArgsToRecreate : Bool) :
    Except String NeuronZero1Optimizer :=
  match mixedPrecisionToDtype mixedPrecision with
  | none => Except.error "The precision is not supported for ZeRO Stage 1"
  | some dtype =>
    Except.ok
      { optimizerDtype := dtype
        pinLayout := false
        builtFromArgsToRecreate := hasArgsToRecreate }

/-! Theorems. -/

/-- Claim C9: constructing a `SequenceCollectiveOpInfo` raises `ValueError` if
and only if its collective op is not one of scatter or gather, or its io is
not one of input or output; every successfully constructed instance satisfies
the membership invariants, and no constraint is enforced on `first_or_last`. -/
theorem sequenceCollectiveOpInfo_validation (collectiveOp layerPattern io firstOrLast : String) :
    ((∃ e, mkSequenceCollectiveOpInfo collectiveOp layerPattern io firstOrLast = Except.error e) ↔
      ((collectiveOp ≠ "scatter" ∧ collectiveOp ≠ "gather") ∨ (io ≠ "input" ∧ io ≠ "output"))) ∧
    (∀ info, mkSequenceCollectiveOpInfo collectiveOp layerPattern io firstOrLast = Except.ok info →
      (info.collectiveOp = "scatter" ∨ info.collectiveOp = "gather") ∧
      (info.io = "input" ∨ info.io = "output") ∧
      info.firstOrLast = firstOrLast) := by
  unfold mkSequenceCollectiveOpInfo
  by_cases h1 : collectiveOp ≠ "scatter" ∧ collectiveOp ≠ "gather"
  · simp [h1]
  · by_cases h2 : io ≠ "input" ∧ io ≠ "output"
    · simp [h1, h2]
    · constructor
      · simp [h1, h2]
      · intro info hinfo
        rw [if_neg h1, if_neg h2] at hinfo
        cases hinfo
        refine ⟨?_, ?_, rfl⟩
        · rcases not_and_or.mp h1 with h | h
          · exact Or.inl (not_not.mp h)
          · exact Or.inr (not_not.mp h)
        · rcases not_and_or.mp h2 with h | h
          · exact Or.inl (not_not.mp h)
          · exact Or.inr (not_not.mp h)

/-- Witness for claim C9 at concrete inputs: an invalid collective op is
rejected, and a valid instance with an arbitrary `first_or_last` value is
accepted with its fields intact. -/
theorem sequenceCollectiveOpInfo_validation_witness :
    (∃ e, mkSequenceCollectiveOpInfo "reduce" "norm" "output" "first" = Except.error e) ∧
    (((⟨"gather", "norm", "output", "middle"⟩ : SequenceCollectiveOpInfo).collectiveOp = "scatter" ∨
      (⟨"gather", "norm", "output", "middle"⟩ : SequenceCollectiveOpInfo).collectiveOp = "gather") ∧
      ((⟨"gather", "norm", "output", "middle"⟩ : SequenceCollectiveOpInfo).io = "input" ∨
       (⟨"gather", "norm", "output", "middle"⟩ : SequenceCollectiveOpInfo).io = "output") ∧
      (⟨"gather", "norm", "output", "middle"⟩ : SequenceCollectiveOpInfo).firstOrLast = "middle") :=
  ⟨(sequenceCollectiveOpInfo_validation "reduce" "norm" "output" "first").1.mpr
      (Or.inl (by decide)),
   (sequenceCollectiveOpInfo_validation "gather" "norm" "output" "middle").2
      ⟨"gather", "norm", "output", "middle"⟩ rfl⟩

/-- Claim C8: `_prepare_optimizer_for_zero_1` raises `ValueError` for every
mixed-precision mode other than no or bf16; for no it builds the ZeRO-1
optimizer with float32 optimizer dtype and for bf16 with bfloat16. -/
theorem prepareOptimizerForZero1_spec (mixedPrecision : String) (hasArgsToRecreate : Bool) :
    (mixedPrecision ≠ "no" → mixedPrecision ≠ "bf16" →
      prepareOptimizerForZero1 mixedPrecision hasArgsToRecreate =
        Except.error "The precision is not supported for ZeRO Stage 1") ∧
    (prepareOptimizerForZero1 "no" hasArgsToRecreate =
      Except.ok ⟨TorchDtype.float32, false, hasArgsToRecreate⟩) ∧
    (prepareOptimizerForZero1 "bf16" hasArgsToRecreate =
      Except.ok ⟨TorchDtype.bfloat16, false, hasArgsToRecreate⟩) := by
  refine ⟨?_, rfl, rfl⟩
  intro h1 h2
  unfold prepareOptimizerForZero1 mixedPrecisionToDtype
  rw [if_neg h1, if_neg h2]

/-- Witness for claim C8 at the concrete mode fp16, which is rejected. -/
theorem prepareOptimizerForZero1_spec_witness :
    prepareOptimizerForZero1 "fp16" true =
      Except.error "The precision is not supported for ZeRO Stage 1" :=
  (prepareOptimizerForZero1_spec "fp16" true).1 (by decide) (by decide)

/-- Claim C7: the output-side wrapped forwards built by
`IOSequenceParallelizer._sequence_parallelize` (scatter and gather) return a
bare tensor exactly when the original forward returned a bare tensor, and for
a tuple return they return a tuple whose first element is the collectively
reshaped tensor and whose remaining elements are unchanged. -/
theorem ioSequenceParallelizeOutputPreservesShape
    (collectiveOp : Tens → Tens) (origForward : Tens → TensorOrTuple) (x : Tens) :
    (∀ t, origForward x = TensorOrTuple.tensor t →
      sequenceParallelForwardScatterOutput collectiveOp origForward x =
        TensorOrTuple.tensor (collectiveOp (List.transpose t)) ∧
      sequenceParallelForwardGatherOutput collectiveOp origForward x =
        TensorOrTuple.tensor (List.transpose (collectiveOp t))) ∧
    (∀ h rest, origForward x = TensorOrTuple.tuple h rest →
      sequenceParallelForwardScatterOutput collectiveOp origForward x =
        TensorOrTuple.tuple (collectiveOp (List.transpose h)) rest ∧
      sequenceParallelForwardGatherOutput collectiveOp origForward x =
        TensorOrTuple.tuple (List.transpose (collectiveOp h)) rest) := by
  constructor
  · intro t ht
    constructor
    · unfold sequenceParallelForwardScatterOutput
      rw [ht]
    · unfold sequenceParallelForwardGatherOutput
      rw [ht]
  · intro h rest ht
    constructor
    · unfold sequenceParallelForwardScatterOutput
      rw [ht]
    · unfold sequenceParallelForwardGatherOutput
      rw [ht]

/-- Witness for claim C7 at a concrete forward returning a tuple, with the
identity as the collective operation. -/
theorem ioSequenceParallelizeOutputPreservesShape_witness :
    sequenceParallelForwardScatterOutput (fun t => t)
        (fun _ => TensorOrTuple.tuple [[1, 2]] [[[3]]]) [] =
      TensorOrTuple.tuple (List.transpose [[1, 2]]) [[[3]]] ∧
    sequenceParallelForwardGatherOutput (fun t => t)
        (fun _ => TensorOrTuple.tuple [[1, 2]] [[[3]]]) [] =
      TensorOrTuple.tuple (List.transpose [[1, 2]]) [[[3]]] :=
  (ioSequenceParallelizeOutputPreservesShape (fun t => t)
      (fun _ => TensorOrTuple.tuple [[1, 2]] [[[3]]]) []).2 [[1, 2]] [[[3]]] rfl

/-- Claim C4: `ParallelEmbedding._transform` returns the layer unchanged and
raises nothing when the number of embeddings is not evenly divisible by the
tensor-parallel size; when it divides, the embedding sublayer (and any tied LM
head) is replaced by its parallel counterpart. -/
theorem parallelEmbedding_divisibility (cfg : EmbCfg) (tpSize : Nat) (layer : EmbLayer)
    (hname : cfg.embeddingName.isSome = true) :
    (layer.embedding.numEmbeddingsOf % tpSize ≠ 0 →
      ParallelEmbedding.transform cfg tpSize layer = (layer, none)) ∧
    (layer.embedding.numEmbeddingsOf % tpSize = 0 →
      (ParallelEmbedding.transform cfg tpSize layer).2 = none ∧
      (ParallelEmbedding.transform cfg tpSize layer).1.embedding =
        EmbeddingModule.parallel layer.embedding.numEmbeddingsOf ∧
      (cfg.lmHeadName.isSome = true → layer.lmHead.isSome = true →
        (ParallelEmbedding.transform cfg tpSize layer).1.lmHead =
          some (Proj.columnParallel true 1 false))) := by
  obtain ⟨en, hen⟩ := Option.isSome_iff_exists.mp hname
  constructor
  · intro hmod
    unfold ParallelEmbedding.transform
    rw [hen]
    simp [hmod]
  · intro hmod
    unfold ParallelEmbedding.transform embedding_to_parallel_embedding
    rw [hen]
    by_cases hlm : (cfg.lmHeadName.isSome && layer.lmHead.isSome) = true
    · obtain ⟨p, hp⟩ := Option.isSome_iff_exists.mp (Bool.and_elim_right hlm)
      simp [hmod, hlm, hp, Bool.and_elim_left hlm]
    · refine ⟨by simp [hmod, hlm], by simp [hmod, hlm], ?_⟩
      intro h1 h2
      rw [h1, h2] at hlm
      simp at hlm

/-- Witness for claim C4: with tensor-parallel size 2, an embedding with 5
rows is left untouched while an embedding with 4 rows and a tied LM head is
replaced together with the head. -/
theorem parallelEmbedding_divisibility_witness :
    ParallelEmbedding.transform ⟨some "embed_tokens", some "lm_head"⟩ 2
        ⟨EmbeddingModule.dense 5, some (Proj.dense 8 5 false)⟩ =
      (⟨EmbeddingModule.dense 5, some (Proj.dense 8 5 false)⟩, none) ∧
    (ParallelEmbedding.transform ⟨some "embed_tokens", some "lm_head"⟩ 2
        ⟨EmbeddingModule.dense 4, some (Proj.dense 8 4 false)⟩).1.embedding =
      EmbeddingModule.parallel 4 ∧
    (ParallelEmbedding.transform ⟨some "embed_tokens", some "lm_head"⟩ 2
        ⟨EmbeddingModule.dense 4, some (Proj.dense 8 4 false)⟩).1.lmHead =
      some (Proj.columnParallel true 1 false) :=
  ⟨(parallelEmbedding_divisibility ⟨some "embed_tokens", some "lm_head"⟩ 2
      ⟨EmbeddingModule.dense 5, some (Proj.dense 8 5 false)⟩ rfl).1 (by decide),
   ((parallelEmbedding_divisibility ⟨some "embed_tokens", some "lm_head"⟩ 2
      ⟨EmbeddingModule.dense 4, some (Proj.dense 8 4 false)⟩ rfl).2 (by decide)).2.1,
   (((parallelEmbedding_divisibility ⟨some "embed_tokens", some "lm_head"⟩ 2
      ⟨EmbeddingModule.dense 4, some (Proj.dense 8 4 false)⟩ rfl).2 (by decide)).2.2 rfl rfl)⟩

/-- Claim C6: the case analysis performed by `ParallelCrossEntropy._transform`
on the problem type and on the class of the last linear projection. -/
theorem parallelCrossEntropy_cases (cfg : CEConfig) (st : CEModelState) :
    ((st.problemType = some "regression" ∨ st.problemType = some "multi_label_classification") →
      ParallelCrossEntropy.transform cfg st = (st, none)) ∧
    (cfg.lastLinearProjectionName.isSome = true →
      is_eligible_for_cross_entropy_parallelization st = true →
      ((∀ g k s, st.linearProjection = Proj.columnParallel g k s →
        ParallelCrossEntropy.transform cfg st = ({ st with crossEntropyPatched := true }, none)) ∧
      (∀ ip s, st.linearProjection = Proj.rowParallel ip s →
        ParallelCrossEntropy.transform cfg st =
          (st, some "Cannot parallelize the cross entropy loss if the last linear projection is a RowParallelLinear instance.")) ∧
      ((∀ g k s, st.linearProjection ≠ Proj.columnParallel g k s) →
       (∀ ip s, st.linearProjection ≠ Proj.rowParallel ip s) →
        ParallelCrossEntropy.transform cfg st =
          ({ st with linearProjection := Proj.columnParallel false 1 false, crossEntropyPatched := true }, none)))) := by
  constructor
  · intro h
    cases hn : cfg.lastLinearProjectionName with
    | none => simp [ParallelCrossEntropy.transform, hn]
    | some v =>
      rcases h with h | h <;>
        simp [ParallelCrossEntropy.transform, is_eligible_for_cross_entropy_parallelization,
          hn, h]
  · intro hname helig
    obtain ⟨v, hv⟩ := Option.isSome_iff_exists.mp hname
    refine ⟨?_, ?_, ?_⟩
    · intro g k s hproj
      simp [ParallelCrossEntropy.transform, hv, helig, hproj]
    · intro ip s hproj
      simp [ParallelCrossEntropy.transform, hv, helig, hproj]
    · intro hnotcol hnotrow
      cases hproj : st.linearProjection with
      | columnParallel g k s => exact absurd hproj (hnotcol g k s)
      | rowParallel ip s => exact absurd hproj (hnotrow ip s)
      | dense i o b => simp [ParallelCrossEntropy.transform, hv, helig, hproj]
      | fakeProj a b c d e => simp [ParallelCrossEntropy.transform, hv, helig, hproj]

/-- Witness for claim C6: the four cases at concrete states — regression model
skipped, column-parallel projection only patched, row-parallel projection
rejected, dense projection replaced and patched. -/
theorem parallelCrossEntropy_cases_witness :
    ParallelCrossEntropy.transform ⟨some "lm_head"⟩
        ⟨some "regression", Proj.dense 4 4 false, false⟩ =
      (⟨some "regression", Proj.dense 4 4 false, false⟩, none) ∧
    ParallelCrossEntropy.transform ⟨some "lm_head"⟩
        ⟨none, Proj.columnParallel false 1 false, false⟩ =
      (⟨none, Proj.columnParallel false 1 false, true⟩, none) ∧
    ParallelCrossEntropy.transform ⟨some "lm_head"⟩
        ⟨none, Proj.rowParallel true false, false⟩ =
      (⟨none, Proj.rowParallel true false, false⟩,
        some "Cannot parallelize the cross entropy loss if the last linear projection is a RowParallelLinear instance.") ∧
    ParallelCrossEntropy.transform ⟨some "lm_head"⟩
        ⟨none, Proj.dense 4 4 false, false⟩ =
      (⟨none, Proj.columnParallel false 1 false, true⟩, none) :=
  ⟨(parallelCrossEntropy_cases ⟨some "lm_head"⟩
      ⟨some "regression", Proj.dense 4 4 false, false⟩).1 (Or.inl rfl),
   ((parallelCrossEntropy_cases ⟨some "lm_head"⟩
      ⟨none, Proj.columnParallel false 1 false, false⟩).2 rfl rfl).1 false 1 false rfl,
   ((parallelCrossEntropy_cases ⟨some "lm_head"⟩
      ⟨none, Proj.rowParallel true false, false⟩).2 rfl rfl).2.1 true false rfl,
   ((parallelCrossEntropy_cases ⟨some "lm_head"⟩
      ⟨none, Proj.dense 4 4 false, false⟩).2 rfl rfl).2.2
      (by intro g k s h; cases h) (by intro ip s h; cases h)⟩

/-- Claim C3: with a declared key/value-heads attribute (and the matching
groups attribute), `ParallelSelfAttention._transform` raises when the number
of key/value heads neither divides nor is divided by the tensor-parallel
size, and the layer is returned exactly as it was, no attribute modified. -/
theorem selfAttention_incompatible_heads_raise (cfg : SAConfig) (tpSize : Nat)
    (lqn : String) (spe : Bool) (kvm : Option Nat) (layer : SALayer)
    (hkv : cfg.numKeyValueHeadsName.isSome = true)
    (hgr : cfg.numKeyValueGroupsName.isSome = true)
    (h1 : layer.numKeyValueHeads % tpSize ≠ 0)
    (h2 : tpSize % layer.numKeyValueHeads ≠ 0) :
    ParallelSelfAttention.transform cfg tpSize lqn spe kvm layer =
      (layer, some "Only the cases where the number of key value heads is divisible by the TP size, or the other way around are supported.") := by
  obtain ⟨a, ha⟩ := Option.isSome_iff_exists.mp hkv
  obtain ⟨b, hb⟩ := Option.isSome_iff_exists.mp hgr
  unfold ParallelSelfAttention.transform
  rw [ha, hb]
  simp [h1, h2]

/-- Witness for claim C3: three key/value heads with tensor-parallel size two
is rejected with the layer untouched. -/
theorem selfAttention_incompatible_heads_raise_witness :
    ParallelSelfAttention.transform
        ⟨"q_proj", "k_proj", "v_proj", some "o_proj", some "num_key_value_heads",
          some "num_key_value_groups"⟩ 2 "attn" false none
        ⟨12, 3, 4, 64, Proj.dense 48 48 true, Proj.dense 48 12 true, Proj.dense 48 12 true,
          Proj.dense 48 48 true, none⟩ =
      (⟨12, 3, 4, 64, Proj.dense 48 48 true, Proj.dense 48 12 true, Proj.dense 48 12 true,
          Proj.dense 48 48 true, none⟩,
        some "Only the cases where the number of key value heads is divisible by the TP size, or the other way around are supported.") :=
  selfAttention_incompatible_heads_raise
    ⟨"q_proj", "k_proj", "v_proj", some "o_proj", some "num_key_value_heads",
      some "num_key_value_groups"⟩ 2 "attn" false none
    ⟨12, 3, 4, 64, Proj.dense 48 48 true, Proj.dense 48 12 true, Proj.dense 48 12 true,
      Proj.dense 48 48 true, none⟩ rfl rfl (by decide) (by decide)

/-- Claim C5: after `replace_qkv_by_gqa_qkv_column_parallel_linear` succeeds,
the query, key and value attributes are `FakeProj` proxies with output indices
0, 1 and 2, each referencing the fused projection installed on the same layer
under the attribute name qkv_proj. -/
theorem replace_qkv_installs_fakeproj (cfg : SAConfig) (tpSize : Nat)
    (lqn : String) (spe : Bool) (kvm : Option Nat) (layer l : SALayer)
    (h : replace_qkv_by_gqa_qkv_column_parallel_linear cfg tpSize lqn spe kvm layer =
      (l, none)) :
    l.query = Proj.fakeProj (lqn ++ "." ++ cfg.queriesName) "q" 0 lqn "qkv_proj" ∧
    l.key = Proj.fakeProj (lqn ++ "." ++ cfg.keysName) "k" 1 lqn "qkv_proj" ∧
    l.value = Proj.fakeProj (lqn ++ "." ++ cfg.valuesName) "v" 2 lqn "qkv_proj" ∧
    l.qkvProj.isSome = true := by
  unfold replace_qkv_by_gqa_qkv_column_parallel_linear at h
  by_cases hn : cfg.numKeyValueHeadsName.isNone = true
  · simp [hn] at h
  · rw [if_neg (by simpa using hn)] at h
    by_cases hlt : tpSize < layer.numKeyValueHeads
    · rw [if_pos hlt] at h
      simp at h
    · rw [if_neg hlt] at h
      rw [Prod.mk.injEq] at h
      obtain ⟨h1, -⟩ := h
      subst h1
      simp [GQA_QKV_PROJ_NAME]

/-- Witness for claim C5: the fused replacement at a concrete grouped-query
attention layer (8 query heads, 2 key/value heads, tensor-parallel size 8). -/
theorem replace_qkv_installs_fakeproj_witness :
    (replace_qkv_by_gqa_qkv_column_parallel_linear
        ⟨"q_proj", "k_proj", "v_proj", some "o_proj", some "num_key_value_heads",
          some "num_key_value_groups"⟩ 8 "model.attn" false none
        ⟨8, 2, 4, 512, Proj.dense 512 512 true, Proj.dense 512 128 true,
          Proj.dense 512 128 true, Proj.dense 512 512 true, none⟩).1.query =
      Proj.fakeProj ("model.attn" ++ "." ++ "q_proj") "q" 0 "model.attn" "qkv_proj" ∧
    (replace_qkv_by_gqa_qkv_column_parallel_linear
        ⟨"q_proj", "k_proj", "v_proj", some "o_proj", some "num_key_value_heads",
          some "num_key_value_groups"⟩ 8 "model.attn" false none
        ⟨8, 2, 4, 512, Proj.dense 512 512 true, Proj.dense 512 128 true,
          Proj.dense 512 128 true, Proj.dense 512 512 true, none⟩).1.key =
      Proj.fakeProj ("model.attn" ++ "." ++ "k_proj") "k" 1 "model.attn" "qkv_proj" ∧
    (replace_qkv_by_gqa_qkv_column_parallel_linear
        ⟨"q_proj", "k_proj", "v_proj", some "o_proj", some "num_key_value_heads",
          some "num_key_value_groups"⟩ 8 "model.attn" false none
        ⟨8, 2, 4, 512, Proj.dense 512 512 true, Proj.dense 512 128 true,
          Proj.dense 512 128 true, Proj.dense 512 512 true, none⟩).1.value =
      Proj.fakeProj ("model.attn" ++ "." ++ "v_proj") "v" 2 "model.attn" "qkv_proj" ∧
    (replace_qkv_by_gqa_qkv_column_parallel_linear
        ⟨"q_proj", "k_proj", "v_proj", some "o_proj", some "num_key_value_heads",
          some "num_key_value_groups"⟩ 8 "model.attn" false none
        ⟨8, 2, 4, 512, Proj.dense 512 512 true, Proj.dense 512 128 true,
          Proj.dense 512 128 true, Proj.dense 512 512 true, none⟩).1.qkvProj.isSome = true :=
  replace_qkv_installs_fakeproj
    ⟨"q_proj", "k_proj", "v_proj", some "o_proj", some "num_key_value_heads",
      some "num_key_value_groups"⟩ 8 "model.attn" false none
    ⟨8, 2, 4, 512, Proj.dense 512 512 true, Proj.dense 512 128 true,
      Proj.dense 512 128 true, Proj.dense 512 512 true, none⟩ _ rfl

/-- Claim C2: with a declared (and compatible) key/value-heads attribute,
`ParallelSelfAttention._transform` takes the GQA fused-projection path exactly
when the number of key/value heads is strictly smaller than the
tensor-parallel size, and otherwise column-shards the query, key and value
projections separately; moreover
`replace_qkv_by_gqa_qkv_column_parallel_linear` raises `ValueError` whenever
the tensor-parallel size is strictly smaller than the number of key/value
heads. -/
theorem selfAttention_gqa_path_choice (cfg : SAConfig) (tpSize : Nat)
    (lqn : String) (spe : Bool) (kvm : Option Nat) (layer : SALayer)
    (hkv : cfg.numKeyValueHeadsName.isSome = true)
    (hgr : cfg.numKeyValueGroupsName.isSome = true)
    (hcompat : layer.numKeyValueHeads % tpSize = 0 ∨ tpSize % layer.numKeyValueHeads = 0)
    (hq : layer.qkvProj = none) :
    ((ParallelSelfAttention.transform cfg tpSize lqn spe kvm layer).2 = none ∧
      ((ParallelSelfAttention.transform cfg tpSize lqn spe kvm layer).1.qkvProj.isSome = true ↔
        layer.numKeyValueHeads < tpSize) ∧
      (¬ layer.numKeyValueHeads < tpSize →
        (ParallelSelfAttention.transform cfg tpSize lqn spe kvm layer).1.query =
          Proj.columnParallel false 1 spe ∧
        (ParallelSelfAttention.transform cfg tpSize lqn spe kvm layer).1.key =
          Proj.columnParallel false 1 spe ∧
        (ParallelSelfAttention.transform cfg tpSize lqn spe kvm layer).1.value =
          Proj.columnParallel false 1 spe)) ∧
    (∀ layer2 tpSize2, tpSize2 < layer2.numKeyValueHeads →
      replace_qkv_by_gqa_qkv_column_parallel_linear cfg tpSize2 lqn spe kvm layer2 =
        (layer2, some "The TP size is lower than the number of key value heads, using GQAQKVColumnParallelLinear is not needed.")) := by
  obtain ⟨a, ha⟩ := Option.isSome_iff_exists.mp hkv
  obtain ⟨b, hb⟩ := Option.isSome_iff_exists.mp hgr
  have hnc : ¬ (layer.numKeyValueHeads % tpSize ≠ 0 ∧ tpSize % layer.numKeyValueHeads ≠ 0) := by
    rcases hcompat with h | h
    · exact fun hc => hc.1 h
    · exact fun hc => hc.2 h
  constructor
  · by_cases hlt : layer.numKeyValueHeads < tpSize
    · have hnlt : ¬ tpSize < layer.numKeyValueHeads := by omega
      cases hop : cfg.outputProjectionName <;>
        simp [ParallelSelfAttention.transform, transformSelfAttentionCore,
          replace_qkv_by_gqa_qkv_column_parallel_linear, ha, hb, hnc, hlt, hnlt, hop]
    · cases hop : cfg.outputProjectionName <;>
        simp [ParallelSelfAttention.transform, transformSelfAttentionCore, ha, hb, hnc, hlt,
          hq, hop]
  · intro layer2 tpSize2 hlt2
    unfold replace_qkv_by_gqa_qkv_column_parallel_linear
    rw [ha]
    simp [hlt2]

/-- Witness for claim C2: at tensor-parallel size 8 a layer with 2 key/value
heads takes the fused path, and the replacement at tensor-parallel size 1 on a
layer with 3 key/value heads is rejected. -/
theorem selfAttention_gqa_path_choice_witness :
    (ParallelSelfAttention.transform
        ⟨"q_proj", "k_proj", "v_proj", some "o_proj", some "num_key_value_heads",
          some "num_key_value_groups"⟩ 8 "attn" false none
        ⟨8, 2, 4, 512, Proj.dense 512 512 true, Proj.dense 512 128 true,
          Proj.dense 512 128 true, Proj.dense 512 512 true, none⟩).2 = none ∧
    (ParallelSelfAttention.transform
        ⟨"q_proj", "k_proj", "v_proj", some "o_proj", some "num_key_value_heads",
          some "num_key_value_groups"⟩ 8 "attn" false none
        ⟨8, 2, 4, 512, Proj.dense 512 512 true, Proj.dense 512 128 true,
          Proj.dense 512 128 true, Proj.dense 512 512 true, none⟩).1.qkvProj.isSome = true ∧
    replace_qkv_by_gqa_qkv_column_parallel_linear
        ⟨"q_proj", "k_proj", "v_proj", some "o_proj", some "num_key_value_heads",
          some "num_key_value_groups"⟩ 1 "attn" false none
        ⟨12, 3, 4, 64, Proj.dense 48 48 true, Proj.dense 48 12 true, Proj.dense 48 12 true,
          Proj.dense 48 48 true, none⟩ =
      (⟨12, 3, 4, 64, Proj.dense 48 48 true, Proj.dense 48 12 true, Proj.dense 48 12 true,
          Proj.dense 48 48 true, none⟩,
        some "The TP size is lower than the number of key value heads, using GQAQKVColumnParallelLinear is not needed.") :=
  ⟨(selfAttention_gqa_path_choice
      ⟨"q_proj", "k_proj", "v_proj", some "o_proj", some "num_key_value_heads",
        some "num_key_value_groups"⟩ 8 "attn" false none
      ⟨8, 2, 4, 512, Proj.dense 512 512 true, Proj.dense 512 128 true,
        Proj.dense 512 128 true, Proj.dense 512 512 true, none⟩ rfl rfl
      (Or.inr (by decide)) rfl).1.1,
   ((selfAttention_gqa_path_choice
      ⟨"q_proj", "k_proj", "v_proj", some "o_proj", some "num_key_value_heads",
        some "num_key_value_groups"⟩ 8 "attn" false none
      ⟨8, 2, 4, 512, Proj.dense 512 512 true, Proj.dense 512 128 true,
        Proj.dense 512 128 true, Proj.dense 512 512 true, none⟩ rfl rfl
      (Or.inr (by decide)) rfl).1.2.1).mpr (by decide),
   (selfAttention_gqa_path_choice
      ⟨"q_proj", "k_proj", "v_proj", some "o_proj", some "num_key_value_heads",
        some "num_key_value_groups"⟩ 8 "attn" false none
      ⟨8, 2, 4, 512, Proj.dense 512 512 true, Proj.dense 512 128 true,
        Proj.dense 512 128 true, Proj.dense 512 512 true, none⟩ rfl rfl
      (Or.inr (by decide)) rfl).2
      ⟨12, 3, 4, 64, Proj.dense 48 48 true, Proj.dense 48 12 true, Proj.dense 48 12 true,
        Proj.dense 48 48 true, none⟩ 1 (by decide)⟩

/-- Helper: the symmetric difference of two name lists is empty exactly when
they contain the same names. -/
theorem symmetricDifference_eq_nil_iff (xs ys : List String) :
    symmetricDifference xs ys = [] ↔ (∀ n, n ∈ xs ↔ n ∈ ys) := by
  unfold symmetricDifference
  rw [List.append_eq_nil, List.filter_eq_nil_iff, List.filter_eq_nil_iff]
  constructor
  · rintro ⟨h1, h2⟩ n
    constructor
    · intro hn
      have := h1 n hn
      simpa using this
    · intro hn
      have := h2 n hn
      simpa using this
  · intro h
    constructor
    · intro a ha
      simp [(h a).mp ha]
    · intro a ha
      simp [(h a).mpr ha]

/-- Claim C1 counterexample: the raised-iff-the-name-sets-differ statement
fails as phrased on the sets of names recorded before the transform.  Two
concrete runs return successfully although the before/after name sets have a
non-empty symmetric difference: one where the GQA renaming re-keys the CPU
snapshot before the comparison, and one in the pipeline (`NxDPPModel`) branch,
whose local parameter names are a strict subset of the CPU names — every local
name is found in the snapshot, so the mapping comprehension succeeds and the
branch performs no symmetric-difference comparison. -/
theorem prepareModelForMp_name_check_counterexample :
    prepareModelForMp ⟨[], "no", true⟩
        ⟨[("attn.q.weight", "attn.qkv.weight_q")], ["attn.qkv.weight_q"], false⟩
        ⟨0, false, false, false, false, true, true, true, false, ["attn.q.weight"]⟩ =
      Except.ok ⟨0, false, true, false, false, true, true, true, true, ["attn.qkv.weight_q"]⟩ ∧
    symmetricDifference ["attn.q.weight"] ["attn.qkv.weight_q"] ≠ [] ∧
    prepareModelForMp ⟨[], "no", true⟩ ⟨[], ["w1"], true⟩
        ⟨1, false, false, false, false, true, true, true, false, ["w1", "w2"]⟩ =
      Except.ok ⟨1, false, true, false, false, true, true, true, true, ["w1"]⟩ ∧
    symmetricDifference ["w1", "w2"] ["w1"] ≠ [] :=
  ⟨rfl, by decide, rfl, by decide⟩

/-- Claim C1 (amended): in the non-pipeline branch, for a model that is not
already prepared or parallelized, `_prepare_model_for_mp` raises `ValueError`
if and only if the GQA-remapped CPU parameter-name set and the parameter-name
set of the model after parallelization, device placement and re-tying have a
non-empty symmetric difference; when no error is raised the remapped name set
and the device name set are identical. -/
theorem prepareModelForMp_name_check (st : AcceleratorState) (eff : ParallelizeEffect)
    (m : NeuronModel) (hmem : st.models.contains m.modelId = false)
    (hpar : m.wasParallelized = false) (hpp : eff.isNxDPP = false) :
    ((∃ e, prepareModelForMp st eff m = Except.error e) ↔
      symmetricDifference (gqaRemapKeys eff.gqaMap m.paramNames) eff.xlaParamNames ≠ []) ∧
    (∀ m2, prepareModelForMp st eff m = Except.ok m2 →
      ∀ n, n ∈ gqaRemapKeys eff.gqaMap m.paramNames ↔ n ∈ eff.xlaParamNames) := by
  have hmem2 : ¬ m.modelId ∈ st.models := by simpa using hmem
  by_cases hd :
      symmetricDifference (gqaRemapKeys eff.gqaMap m.paramNames) eff.xlaParamNames = []
  · have hall : eff.xlaParamNames.all
        (fun n => n ∈ gqaRemapKeys eff.gqaMap m.paramNames) = true := by
      rw [List.all_eq_true]
      intro n hn
      simpa using ((symmetricDifference_eq_nil_iff _ _).mp hd n).mpr hn
    constructor
    · simp [prepareModelForMp, hmem2, hpar, hpp, hd, hall]
    · intro m2 _ n
      exact (symmetricDifference_eq_nil_iff _ _).mp hd n
  · constructor
    · simp [prepareModelForMp, hmem2, hpar, hpp, hd]
    · intro m2 hm2
      simp [prepareModelForMp, hmem2, hpar, hpp, hd] at hm2

/-- Witness for claim C1 (amended): a run whose GQA renaming makes the
remapped set match, and a run with genuinely differing sets that errors. -/
theorem prepareModelForMp_name_check_witness :
    ("a.qkv" ∈ gqaRemapKeys [("a.q", "a.qkv")] ["a.q", "b.w"] ↔
      "a.qkv" ∈ (["a.qkv", "b.w"] : List String)) ∧
    (∃ e, prepareModelForMp ⟨[], "no", true⟩ ⟨[], ["x"], false⟩
        ⟨2, false, false, false, false, true, true, true, false, ["y"]⟩ = Except.error e) :=
  ⟨(prepareModelForMp_name_check ⟨[], "no", true⟩ ⟨[("a.q", "a.qkv")], ["a.qkv", "b.w"], false⟩
      ⟨3, false, false, false, false, true, true, true, false, ["a.q", "b.w"]⟩ rfl rfl rfl).2
      ⟨3, false, true, false, false, true, true, true, true, ["a.qkv", "b.w"]⟩ rfl "a.qkv",
   (prepareModelForMp_name_check ⟨[], "no", true⟩ ⟨[], ["x"], false⟩
      ⟨2, false, false, false, false, true, true, true, false, ["y"]⟩ rfl rfl rfl).1.mpr
      (by decide)⟩

/-- Claim C10: `prepare_model` returns a model already recorded in the
prepared-models list immediately and unchanged, `_prepare_model_for_mp`
returns an already prepared or already parallelized model unchanged, and a
second `prepare_model` call on the result of a successful first call returns
it unchanged. -/
theorem prepareModel_idempotent (st : AcceleratorState) (eff : ParallelizeEffect)
    (m : NeuronModel) :
    (st.models.contains m.modelId = true → prepareModel st eff m = Except.ok (st, m)) ∧
    (st.models.contains m.modelId = true ∨ m.wasParallelized = true →
      prepareModelForMp st eff m = Except.ok m) ∧
    (∀ st1 m1, prepareModel st eff m = Except.ok (st1, m1) →
      prepareModel st1 eff m1 = Except.ok (st1, m1)) := by
  refine ⟨?_, ?_, ?_⟩
  · intro h
    have h2 : m.modelId ∈ st.models := by simpa using h
    simp [prepareModel, h2]
  · intro h
    rcases h with h | h
    · have h2 : m.modelId ∈ st.models := by simpa using h
      simp [prepareModelForMp, h2]
    · simp [prepareModelForMp, h]
  · intro st1 m1 hok
    have hdone : st1.models.contains m1.modelId = true := by
      simp only [prepareModel] at hok
      split at hok
      case isTrue hc =>
        rw [Except.ok.injEq, Prod.mk.injEq] at hok
        obtain ⟨rfl, rfl⟩ := hok
        exact hc
      case isFalse hc =>
        split at hok
        case isTrue hcust =>
          rw [Except.ok.injEq, Prod.mk.injEq] at hok
          obtain ⟨h1, h2⟩ := hok
          subst h1
          subst h2
          simp
        case isFalse hcust =>
          split at hok
          case isTrue hmp =>
            split at hok
            case h_1 e he =>
              simp at hok
            case h_2 m2 hm2 =>
              rw [Except.ok.injEq, Prod.mk.injEq] at hok
              obtain ⟨h1, h2⟩ := hok
              subst h1
              subst h2
              simp
          case isFalse hmp =>
            rw [Except.ok.injEq, Prod.mk.injEq] at hok
            obtain ⟨h1, h2⟩ := hok
            subst h1
            subst h2
            simp
    have hdone2 : m1.modelId ∈ st1.models := by simpa using hdone
    simp [prepareModel, hdone2]

/-- Witness for claim C10: an already-prepared model is returned unchanged, an
already-parallelized model passes through `_prepare_model_for_mp` untouched,
and re-preparing the result of a fresh preparation changes nothing. -/
theorem prepareModel_idempotent_witness :
    prepareModel ⟨[5], "no", false⟩ ⟨[], [], false⟩
        ⟨5, false, false, false, false, true, true, true, false, []⟩ =
      Except.ok (⟨[5], "no", false⟩,
        ⟨5, false, false, false, false, true, true, true, false, []⟩) ∧
    prepareModelForMp ⟨[], "no", true⟩ ⟨[], [], false⟩
        ⟨7, false, true, false, false, true, true, true, false, []⟩ =
      Except.ok ⟨7, false, true, false, false, true, true, true, false, []⟩ ∧
    prepareModel ⟨[9], "no", false⟩ ⟨[], [], false⟩
        ⟨9, false, false, true, false, false, false, false, true, ["w"]⟩ =
      Except.ok (⟨[9], "no", false⟩,
        ⟨9, false, false, true, false, false, false, false, true, ["w"]⟩) :=
  ⟨(prepareModel_idempotent ⟨[5], "no", false⟩ ⟨[], [], false⟩
      ⟨5, false, false, false, false, true, true, true, false, []⟩).1 rfl,
   (prepareModel_idempotent ⟨[], "no", true⟩ ⟨[], [], false⟩
      ⟨7, false, true, false, false, true, true, true, false, []⟩).2.1 (Or.inr rfl),
   (prepareModel_idempotent ⟨[], "no", false⟩ ⟨[], [], false⟩
      ⟨9, false, false, false, false, true, true, true, false, ["w"]⟩).2.2
      ⟨[9], "no", false⟩
      ⟨9, false, false, true, false, false, false, false, true, ["w"]⟩ rfl⟩

end OptimumNeuron
